import Mathlib

/-!
# Verification of the tyrquake model loader (`src/common/gl_model.c`)

Shallow embedding of the model-loading subsystem: run-length visibility
decompression, BSP point location, lump-table validation, texture animation
sequencing, alias frame/pose decoding, skin-slot filling, surface extents,
and the model registry.  C `int` fields become `Int`, C `float` fields
become `ℚ` (the loader only adds, multiplies, compares, floors and ceils),
byte buffers become `List Nat`, and fatal `Sys_Error` calls become
`Except String` errors.
-/

namespace GlModel

/-! ## Visibility decompression (`Mod_DecompressVis`, gl_model.c:121-155)

The output buffer is modelled as the list of bytes written.  The C decoder
is a do-while loop: it emits one chunk (a literal byte, or a zero-run whose
length is the byte following the zero marker) and repeats while the output
is still shorter than `row = (numleafs + 7) >> 3`. -/

/-- One-chunk-at-a-time expansion loop of `Mod_DecompressVis`: `outlen` is
the number of bytes already written, `row` the target length.  An input
exhausted before the row is filled stops the expansion (the C code would
read out of bounds there). -/
def visLoop : List Nat → Nat → Nat → List Nat
  | [], _, _ => []
  | b :: rest, outlen, row =>
    if b ≠ 0 then
      b :: (if outlen + 1 < row then visLoop rest (outlen + 1) row else [])
    else
      match rest with
      | [] => []
      | c :: rest' =>
        List.replicate c 0 ++
          (if outlen + c < row then visLoop rest' (outlen + c) row else [])

/-- `Mod_DecompressVis`: `none` models a NULL compressed row (`if (!in)`),
in which case `row` bytes of `0xff` are produced. -/
def Mod_DecompressVis (vis : Option (List Nat)) (numleafs : Nat) : List Nat :=
  let row := (numleafs + 7) / 8
  match vis with
  | none => List.replicate row 255
  | some l => visLoop l 0 row

/-! ## Point-in-leaf query (`Mod_PointInLeaf`, gl_model.c:90-113) -/

/-- `mplane_t`: the fields read by the traversal. -/
structure MPlane where
  normal : ℚ × ℚ × ℚ
  dist : ℚ
  deriving DecidableEq

/-- The node/leaf tree built by `Mod_LoadNodes`/`Mod_LoadLeafs`.  In C both
kinds live behind one pointer type and a leaf is recognised by
`contents < 0`; the loader only ever creates leaves with negative contents
(internal nodes keep contents `0` from the zeroed hunk allocation), so the
`leaf` constructor is exactly the `contents < 0` case the loop tests. -/
inductive MNode where
  | leaf (contents : Int)
  | node (plane : MPlane) (child0 child1 : MNode)
  deriving DecidableEq

/-- `DotProduct` macro on `vec3_t`. -/
def DotProduct (a b : ℚ × ℚ × ℚ) : ℚ :=
  a.1 * b.1 + a.2.1 * b.2.1 + a.2.2 * b.2.2

/-- Whether a tree element is a leaf (`contents < 0` in the C data). -/
def MNode.isLeaf : MNode → Bool
  | .leaf _ => true
  | .node _ _ _ => false

/-- The `while (1)` descent of `Mod_PointInLeaf`: at an internal node the
signed distance `DotProduct(p, plane->normal) - plane->dist` selects
`children[0]` when strictly positive, `children[1]` otherwise. -/
def pointInLeafDescend (p : ℚ × ℚ × ℚ) : MNode → MNode
  | .leaf contents => .leaf contents
  | .node plane c0 c1 =>
    if DotProduct p plane.normal - plane.dist > 0 then pointInLeafDescend p c0
    else pointInLeafDescend p c1

/-- The part of `model_t` used by `Mod_PointInLeaf`: `nodes = none` models a
NULL node array. -/
structure BrushModel where
  nodes : Option MNode
  deriving DecidableEq

/-- `Mod_PointInLeaf`: `Sys_Error("bad model")` when the model pointer or
its node array is NULL, otherwise the descent from the root. -/
def Mod_PointInLeaf (p : ℚ × ℚ × ℚ) (model : Option BrushModel) :
    Except String MNode :=
  match model with
  | none => .error "bad model"
  | some m =>
    match m.nodes with
    | none => .error "bad model"
    | some root => .ok (pointInLeafDescend p root)

/-- Two-leaf test tree: root splits on the plane x = 0 (normal (1,0,0),
dist 0); `children[0]` is the leaf with contents -1, `children[1]` the leaf
with contents -2. -/
def xplaneTree : MNode :=
  .node ⟨(1, 0, 0), 0⟩ (.leaf (-1)) (.leaf (-2))

/-! ## Lump-table validation (`Mod_LoadBrushModel`, gl_model.c:1166-1189) -/

/-- `lump_t`: a (fileofs, filelen) pair, already endian-normalised. -/
structure Lump where
  fileofs : Int
  filelen : Int
  deriving DecidableEq

/-- Per-lump extent sanity check: with `b1 = fileofs` and
`e1 = b1 + filelen`, `Sys_Error` fires when
`b1 > e1 || e1 > size || b1 < 0 || e1 < 0`; `true` means the check
passes. -/
def lumpExtentsOk (size : Int) (l : Lump) : Bool :=
  let b1 := l.fileofs
  let e1 := b1 + l.filelen
  decide ¬(b1 > e1 ∨ e1 > size ∨ b1 < 0 ∨ e1 < 0)

/-- Pairwise check from the inner `j` loop: `Sys_Error("overlapping lumps")`
fires when `(b1 < b2 && e1 > b2) || (b2 < b1 && e2 > b1)`; `true` means the
pair passes. -/
def lumpPairOk (l1 l2 : Lump) : Bool :=
  let b1 := l1.fileofs
  let e1 := b1 + l1.filelen
  let b2 := l2.fileofs
  let e2 := b2 + l2.filelen
  decide ¬((b1 < b2 ∧ e1 > b2) ∨ (b2 < b1 ∧ e2 > b1))

/-- The full lump-table validation double loop of `Mod_LoadBrushModel`
(the `j` loop runs over every lump, the self-pair included, exactly as in
the C code); `true` means no `Sys_Error` fires. -/
def checkLumps (size : Int) (lumps : List Lump) : Bool :=
  lumps.all fun l1 => lumpExtentsOk size l1 && lumps.all fun l2 => lumpPairOk l1 l2

/-- Spec-side definition, following the spec's words: two lumps overlap in
byte ranges when some byte position lies inside both, i.e. the larger start
is below the smaller end. -/
def specLumpsOverlap (l1 l2 : Lump) : Prop :=
  max l1.fileofs l2.fileofs <
    min (l1.fileofs + l1.filelen) (l2.fileofs + l2.filelen)

/-! ## Alias header validation (`Mod_LoadAliasModel`, gl_model.c:1579-1624) -/

/-- The `mdl_t` header fields that the validation sequence reads. -/
structure MdlHeader where
  version : Int
  numskins : Int
  skinwidth : Int
  skinheight : Int
  numverts : Int
  numtris : Int
  numframes : Int
  deriving DecidableEq

/-- The header validation sequence of `Mod_LoadAliasModel`, parameterised
by the capacity constants `ALIAS_VERSION`, `MAX_LBM_HEIGHT` and
`MAXALIASVERTS`, whose numeric values live in headers outside `src/`.  The
checks appear in source order; note that no check bounds `numtris` from
above. -/
def aliasHeaderCheck (av mlh mav : Int) (hdr : MdlHeader) :
    Except String Unit :=
  if hdr.version ≠ av then .error "wrong version number"
  else if hdr.skinheight > mlh then .error "skin taller than max"
  else if hdr.numverts ≤ 0 then .error "no vertices"
  else if hdr.numverts > mav then .error "too many vertices"
  else if hdr.numtris ≤ 0 then .error "no triangles"
  else if hdr.numframes < 1 then .error "invalid number of frames"
  else .ok ()

/-! ## Alias frame decoding (`Mod_LoadAliasFrame` gl_model.c:1295-1315,
`Mod_LoadAliasGroup` gl_model.c:1325-1355, frame loop gl_model.c:1669-1683)

The shared pose cursor `posenum` is threaded explicitly; the per-pose
interval table is collected in cursor order. -/

/-- `maliasframedesc_t`: the pose range fields assigned by the loaders. -/
structure MAliasFrameDesc where
  firstpose : Nat
  numposes : Nat
  deriving DecidableEq

/-- One on-disk frame declaration: `ALIAS_SINGLE`, or a group together
with the interval table that `numframes` makes the loader read. -/
inductive DAliasFrame where
  | single
  | group (intervals : List ℚ)
  deriving DecidableEq

/-- `Mod_LoadAliasFrame`: one pose at the current cursor; the interval
slot gets the unused sentinel 999; returns (descriptor, recorded
intervals, advanced cursor). -/
def Mod_LoadAliasFrame (posenum : Nat) : MAliasFrameDesc × List ℚ × Nat :=
  (⟨posenum, 1⟩, [999], posenum + 1)

/-- The interval loop of `Mod_LoadAliasGroup`:
`Sys_Error("interval <= 0")` on any interval `≤ 0`, else the intervals are
recorded in order. -/
def aliasGroupIntervals : List ℚ → Except String (List ℚ)
  | [] => .ok []
  | t :: rest =>
    if t ≤ 0 then .error "interval <= 0"
    else do
      let rest' ← aliasGroupIntervals rest
      pure (t :: rest')

/-- `Mod_LoadAliasGroup`: `numframes` poses starting at the current
cursor, one strictly positive interval per sub-frame. -/
def Mod_LoadAliasGroup (posenum : Nat) (intervals : List ℚ) :
    Except String (MAliasFrameDesc × List ℚ × Nat) := do
  let ivs ← aliasGroupIntervals intervals
  pure (⟨posenum, intervals.length⟩, ivs, posenum + intervals.length)

/-- The frame loop of `Mod_LoadAliasModel`: the cursor starts at 0
(`posenum = 0;`) and advances through the declarations in order; returns
(frame descriptors, pose interval table, final pose count). -/
def loadAliasFrames (posenum : Nat) :
    List DAliasFrame → Except String (List MAliasFrameDesc × List ℚ × Nat)
  | [] => .ok ([], [], posenum)
  | .single :: rest => do
    let (desc, ivs, p') := Mod_LoadAliasFrame posenum
    let (descs, ivss, pfin) ← loadAliasFrames p' rest
    pure (desc :: descs, ivs ++ ivss, pfin)
  | .group intervals :: rest => do
    let (desc, ivs, p') ← Mod_LoadAliasGroup posenum intervals
    let (descs, ivss, pfin) ← loadAliasFrames p' rest
    pure (desc :: descs, ivs ++ ivss, pfin)

/-! ## Skin-group slot filling (`Mod_LoadAllSkins`, gl_model.c:1488-1517)

The fixed 4-entry `gl_texturenum[i]` row for one animating skin group is
modelled as a 4-element list; uploaded texture handles are `Nat`s. -/

/-- First loop of the group branch: sub-image `j`'s uploaded handle goes to
slot `j & 3`. -/
def skinGroupFill1 (slots : List Nat) : List Nat → Nat → List Nat
  | [], _ => slots
  | h :: rest, j => skinGroupFill1 (slots.set (j % 4) h) rest (j + 1)

/-- Second loop, `for (; j < 4; j++)` with `k = groupskins`: slot `j & 3`
receives the current contents of slot `j - k`.  The fuel argument is
`4 - j`, making the iteration structural. -/
def skinGroupFill2 : List Nat → Nat → Nat → Nat → List Nat
  | slots, _, _, 0 => slots
  | slots, k, j, fuel + 1 =>
    skinGroupFill2 (slots.set (j % 4) (slots.getD (j - k) 0)) k (j + 1) fuel

/-- The slot row produced by the skin-group branch for a list of uploaded
sub-image handles (the table starts zeroed). -/
def skinGroupSlots (handles : List Nat) : List Nat :=
  skinGroupFill2 (skinGroupFill1 [0, 0, 0, 0] handles 0)
    handles.length handles.length (4 - handles.length)

/-! ## Model registry (`Mod_FindName` gl_model.c:194-220, `Mod_TouchModel`
gl_model.c:228-239) -/

/-- `modtype_t`. -/
inductive ModType where
  | brush
  | sprite
  | alias
  deriving DecidableEq

/-- The `model_t` fields the registry operations read or write. -/
structure RegModel where
  name : String
  needload : Bool
  mtype : ModType
  deriving DecidableEq

/-- `MAX_MOD_KNOWN` (gl_model.c:44). -/
def MAX_MOD_KNOWN : Nat := 512

/-- Modelled from the spec: `MAX_QPATH`, the bound on a model name's
length ("identity (name, up to a bounded length)"); the constant lives in
a header outside `src/`.  `Mod_FindName` stores at most `MAX_QPATH - 1`
characters of the requested name. -/
def MAX_QPATH : Nat := 64

/-- `Mod_FindName`: fatal on an empty name; linear `strcmp` scan of the
known slots; an absent name claims the next slot — fatal when the table is
already full — storing the (truncated) name with `needload = true`; the
fresh slot's remaining fields keep the zero-initialised values of the
static table, i.e. type `mod_brush`.  Returns the updated table and the
index of the found or created slot. -/
def Mod_FindName (models : List RegModel) (name : String) :
    Except String (List RegModel × Nat) :=
  if name = "" then .error "NULL name"
  else
    match models.findIdx? (fun m => m.name = name) with
    | some i => .ok (models, i)
    | none =>
      if models.length = MAX_MOD_KNOWN then
        .error "mod_numknown == MAX_MOD_KNOWN"
      else
        .ok (models ++ [⟨name.take (MAX_QPATH - 1), true, .brush⟩],
          models.length)

/-- `Mod_TouchModel`: resolves the name through `Mod_FindName`; its body
only probes the external cache (`Cache_Check`) for already-loaded alias
models, which neither loads data nor writes any registry field, so the
registry state returned is exactly the one `Mod_FindName` produced. -/
def Mod_TouchModel (models : List RegModel) (name : String) :
    Except String (List RegModel) :=
  (Mod_FindName models name).map fun r => r.1

/-! ## Surface extents (`CalcSurfaceExtents` gl_model.c:692-734) and face
drawing flags (`Mod_LoadFaces` gl_model.c:759-796) -/

/-- Modelled from the spec: `TEX_SPECIAL` (sky/turbulent texinfo flag) from
the BSP format header, which is outside `src/`; only its being a single
bit matters here.  Flag words are modelled as `Nat` bit sets. -/
def TEX_SPECIAL : Nat := 1

/-- Modelled from the spec: the surface drawing flag bits set by
`Mod_LoadFaces`, defined in a renderer header outside `src/`; only their
being distinct bits matters here. -/
def SURF_PLANEBACK : Nat := 2

/-- See `SURF_PLANEBACK`. -/
def SURF_DRAWSKY : Nat := 4

/-- See `SURF_PLANEBACK`. -/
def SURF_DRAWTURB : Nat := 16

/-- See `SURF_PLANEBACK`. -/
def SURF_DRAWTILED : Nat := 32

/-- `FLT_MAX = (2 - 2^-23) * 2^127`, the seed of the min/max scans. -/
def fltMax : ℚ := 2 ^ 128 - 2 ^ 104

/-- `mtexinfo_t`: the two texture-space basis rows (s and t, each
(x, y, z, offset)) and the flags word. -/
structure MTexinfo where
  vecsS : ℚ × ℚ × ℚ × ℚ
  vecsT : ℚ × ℚ × ℚ × ℚ
  flags : Nat
  deriving DecidableEq

/-- The loading-model arrays `CalcSurfaceExtents` dereferences:
`surfedges` (signed edge indices), `edges` (the `v[0]`/`v[1]` vertex index
pair) and `vertexes`. -/
structure BspArrays where
  surfedges : List Int
  edges : List (Nat × Nat)
  vertexes : List (ℚ × ℚ × ℚ)
  deriving DecidableEq

/-- The face fields `CalcSurfaceExtents` reads. -/
structure FaceSpec where
  firstedge : Nat
  numedges : Nat
  texinfo : MTexinfo
  deriving DecidableEq

/-- The vertex reached through surf-edge `i` of the face: a non-negative
surf-edge index `e` selects `edges[e].v[0]`, a negative one
`edges[-e].v[1]`. -/
def faceVertex (A : BspArrays) (f : FaceSpec) (i : Nat) : ℚ × ℚ × ℚ :=
  let e := A.surfedges.getD (f.firstedge + i) 0
  if e ≥ 0 then A.vertexes.getD (A.edges.getD e.toNat (0, 0)).1 (0, 0, 0)
  else A.vertexes.getD (A.edges.getD (-e).toNat (0, 0)).2 (0, 0, 0)

/-- Projection of a vertex position onto one texture basis row:
`v[0]*vec[0] + v[1]*vec[1] + v[2]*vec[2] + vec[3]`. -/
def projectVert (v : ℚ × ℚ × ℚ) (vec : ℚ × ℚ × ℚ × ℚ) : ℚ :=
  v.1 * vec.1 + v.2.1 * vec.2.1 + v.2.2 * vec.2.2.1 + vec.2.2.2

/-- The projected values of all the face's vertices on one basis row. -/
def projVals (A : BspArrays) (f : FaceSpec) (vec : ℚ × ℚ × ℚ × ℚ) :
    List ℚ :=
  (List.range f.numedges).map fun i => projectVert (faceVertex A f i) vec

/-- Running minimum of the scan, seeded with `FLT_MAX`. -/
def axisMin (l : List ℚ) : ℚ := l.foldl min fltMax

/-- Running maximum of the scan, seeded with `-FLT_MAX`. -/
def axisMax (l : List ℚ) : ℚ := l.foldl max (-fltMax)

/-- One axis of `CalcSurfaceExtents`: `bmins = floor(mins/16)`,
`bmaxs = ceil(maxs/16)`, result `(texturemins, extents) =
(bmins*16, (bmaxs - bmins)*16)`. -/
def axisBounds (l : List ℚ) : Int × Int :=
  let bmin : Int := Int.floor (axisMin l / 16)
  let bmax : Int := Int.ceil (axisMax l / 16)
  (bmin * 16, (bmax - bmin) * 16)

/-- The `s->texturemins[]` and `s->extents[]` pairs. -/
structure SurfExtents where
  texturemins : Int × Int
  extents : Int × Int
  deriving DecidableEq

/-- `CalcSurfaceExtents`: both axes of the scan, with the fatal
`Sys_Error("Bad surface extents")` when an axis extent exceeds 256 on a
texinfo whose flags lack `TEX_SPECIAL`. -/
def CalcSurfaceExtents (A : BspArrays) (f : FaceSpec) :
    Except String SurfExtents :=
  let b0 := axisBounds (projVals A f f.texinfo.vecsS)
  let b1 := axisBounds (projVals A f f.texinfo.vecsT)
  if f.texinfo.flags &&& TEX_SPECIAL = 0 ∧ b0.2 > 256 then
    .error "Bad surface extents"
  else if f.texinfo.flags &&& TEX_SPECIAL = 0 ∧ b1.2 > 256 then
    .error "Bad surface extents"
  else .ok ⟨(b0.1, b1.1), (b0.2, b1.2)⟩

/-- The computed per-surface output of `Mod_LoadFaces` relevant here. -/
structure SurfOut where
  flags : Nat
  texturemins : Int × Int
  extents : Int × Int
  deriving DecidableEq

/-- The per-face tail of `Mod_LoadFaces`: flags start from the
`SURF_PLANEBACK` side bit, `CalcSurfaceExtents` runs (fatal on bad
extents), then the texture name (a char array, compared with `strncmp`) is
sniffed — a name starting with "sky" adds `SURF_DRAWSKY|SURF_DRAWTILED`
and keeps the computed extents, else a name starting with "*" adds
`SURF_DRAWTURB|SURF_DRAWTILED` and overwrites `extents[i] = 16384`,
`texturemins[i] = -8192`. -/
def loadFaceSurf (texname : List Char) (side : Bool) (A : BspArrays)
    (f : FaceSpec) : Except String SurfOut := do
  let base : Nat := if side then SURF_PLANEBACK else 0
  let ext ← CalcSurfaceExtents A f
  if (['s', 'k', 'y'].isPrefixOf texname) then
    pure ⟨base ||| SURF_DRAWSKY ||| SURF_DRAWTILED,
      ext.texturemins, ext.extents⟩
  else if (['*'].isPrefixOf texname) then
    pure ⟨base ||| SURF_DRAWTURB ||| SURF_DRAWTILED,
      (-8192, -8192), (16384, 16384)⟩
  else
    pure ⟨base, ext.texturemins, ext.extents⟩

/-- Test fixture: two vertices projecting to `m` and `m + 17` on the s
axis (the t row is the zero functional), reached through surf-edges
`[1, -1]` over edge 1 = (vertex 0, vertex 1). -/
def span17Arrays (m : ℚ) : BspArrays :=
  ⟨[1, -1], [(0, 0), (0, 1)], [(m, 0, 0), (m + 17, 0, 0)]⟩

/-- Test fixture: the face over `span17Arrays` with a non-special
texinfo projecting vertices onto the x axis. -/
def span17Face : FaceSpec :=
  ⟨0, 2, ⟨(1, 0, 0, 0), (0, 0, 0, 0), 0⟩⟩

/-- Test fixture: the same face with a `TEX_SPECIAL` texinfo, as a sky
texture's face would have. -/
def span17FaceSpecial : FaceSpec :=
  ⟨0, 2, ⟨(1, 0, 0, 0), (0, 0, 0, 0), TEX_SPECIAL⟩⟩

/-! ## Texture animation sequencing (`Mod_LoadTextures`, gl_model.c:404-479)

Textures are modelled by their names (`none` = NULL texture slot); the
sequencing pass computes, per texture index, the animation linkage fields
or leaves the slot untouched (`none` = `anim_next` still NULL). -/

/-- The animation linkage fields assigned by the sequencing pass;
`anim_next` and `alternate_anims` hold texture indices (`none` = NULL). -/
structure AnimInfo where
  anim_total : Nat
  anim_min : Nat
  anim_max : Nat
  anim_next : Option Nat
  alternate_anims : Option Nat
  deriving DecidableEq

/-- Frame classification of a name's second character: lowercase letters
are uppercased (`max -= 'a' - 'A'`), then '0'-'9' is a primary frame index
and 'A'-'J' an alternate one; anything else is the fatal
`Sys_Error("Bad animating texture")`. -/
def animFrameIndex (c : Char) : Except String (Bool × Nat) :=
  let u := if 'a' ≤ c ∧ c ≤ 'z' then Char.ofNat (c.toNat - 32) else c
  if '0' ≤ u ∧ u ≤ '9' then .ok (false, u.toNat - '0'.toNat)
  else if 'A' ≤ u ∧ u ≤ 'J' then .ok (true, u.toNat - 'A'.toNat)
  else .error "Bad animating texture"

/-- The `anims`/`altanims` scratch arrays (10 slots each, texture indices)
and the running `max`/`altmax` frame counts. -/
structure AnimCollect where
  anims : List (Option Nat)
  altanims : List (Option Nat)
  maxf : Nat
  altmax : Nat
  deriving DecidableEq

/-- One iteration of the inner `j` collection loop: skip NULL and
non-'+' textures and names whose suffix (`name + 2`) differs from the base
texture's; otherwise classify the frame character, record the texture
index and bump the frame count (`if (num + 1 > max) max = num + 1`). -/
def collectStep (textures : List (Option (List Char))) (base : List Char)
    (s : AnimCollect) (j : Nat) : Except String AnimCollect :=
  match textures.getD j none with
  | none => .ok s
  | some name2 =>
    if name2.getD 0 (Char.ofNat 0) ≠ '+' then .ok s
    else if name2.drop 2 ≠ base.drop 2 then .ok s
    else do
      let (isAlt, idx) ← animFrameIndex (name2.getD 1 (Char.ofNat 0))
      if isAlt then
        .ok { s with altanims := s.altanims.set idx (some j),
                     altmax := Nat.max s.altmax (idx + 1) }
      else
        .ok { s with anims := s.anims.set idx (some j),
                     maxf := Nat.max s.maxf (idx + 1) }

/-- One iteration of the linking loop: frame `j` must be populated
(`Sys_Error("Missing frame")` otherwise) and its texture receives
`anim_total = max * ANIM_CYCLE`, `anim_min = j * ANIM_CYCLE`,
`anim_max = (j+1) * ANIM_CYCLE` and `anim_next = anims[(j+1) % max]`,
with `ANIM_CYCLE = 2`; `alt0` is the alternate-sequence head recorded
when the other sequence is non-empty. -/
def linkStep (anims : List (Option Nat)) (maxf : Nat) (alt0 : Option Nat)
    (st : List (Option AnimInfo)) (j : Nat) :
    Except String (List (Option AnimInfo)) :=
  match anims.getD j none with
  | none => .error "Missing frame"
  | some t =>
    .ok (st.set t (some ⟨maxf * 2, j * 2, (j + 1) * 2,
      anims.getD ((j + 1) % maxf) none, alt0⟩))

/-- The full linking loop over frames `0 ≤ j < max`. -/
def linkSeq (st : List (Option AnimInfo)) (anims : List (Option Nat))
    (maxf : Nat) (alt0 : Option Nat) :
    Except String (List (Option AnimInfo)) :=
  (List.range maxf).foldlM (linkStep anims maxf alt0) st

/-- Sequencing of the one group based at texture `i`: classify the base
texture's own frame character and seed the scratch arrays, collect every
later texture sharing the suffix, then run the primary and alternate
linking loops (each frame's `alternate_anims` pointing at the head of the
other sequence when that sequence is non-empty). -/
def sequenceGroup (textures : List (Option (List Char)))
    (st : List (Option AnimInfo)) (i : Nat) (name : List Char) :
    Except String (List (Option AnimInfo)) := do
  let (isAlt, idx) ← animFrameIndex (name.getD 1 (Char.ofNat 0))
  let init : AnimCollect :=
    if isAlt then
      ⟨List.replicate 10 none, (List.replicate 10 none).set idx (some i),
        0, idx + 1⟩
    else
      ⟨(List.replicate 10 none).set idx (some i), List.replicate 10 none,
        idx + 1, 0⟩
  let s ← (List.range' (i + 1) (textures.length - (i + 1))).foldlM
    (collectStep textures name) init
  let st1 ← linkSeq st s.anims s.maxf
    (if s.altmax ≠ 0 then s.altanims.getD 0 none else none)
  let st2 ← linkSeq st1 s.altanims s.altmax
    (if s.maxf ≠ 0 then s.anims.getD 0 none else none)
  pure st2

/-- The whole "sequence the animations" pass: every texture whose name
starts with '+' and whose `anim_next` is still NULL (state entry `none`)
starts a group. -/
def sequenceAnims (textures : List (Option (List Char))) :
    Except String (List (Option AnimInfo)) :=
  (List.range textures.length).foldlM (fun st i =>
    match textures.getD i none with
    | none => .ok st
    | some name =>
      if name.getD 0 (Char.ofNat 0) ≠ '+' then .ok st
      else if (st.getD i none).isSome then .ok st
      else sequenceGroup textures st i name)
    (List.replicate textures.length none)

end GlModel

namespace GlModel

/-- C3: visibility decompression: a NULL row yields `(numleafs+7)/8` bytes
of 0xFF; a non-zero input byte is copied literally and a zero byte starts a
run of zeroes of the length given by the next byte, the expansion repeating
only while the output is shorter than the row; `[0x00, 0x03, 0xFF]` with 32
leaves decompresses to `[0, 0, 0, 0xFF]`. -/
theorem c3_decompress_vis :
    (∀ n : Nat, Mod_DecompressVis none n = List.replicate ((n + 7) / 8) 255) ∧
    (∀ (b : Nat) (rest : List Nat) (outlen row : Nat), b ≠ 0 →
      visLoop (b :: rest) outlen row =
        b :: (if outlen + 1 < row then visLoop rest (outlen + 1) row else [])) ∧
    (∀ (c : Nat) (rest : List Nat) (outlen row : Nat),
      visLoop (0 :: c :: rest) outlen row =
        List.replicate c 0 ++
          (if outlen + c < row then visLoop rest (outlen + c) row else [])) ∧
    Mod_DecompressVis (some [0, 3, 255]) 32 = [0, 0, 0, 255] := by
  refine ⟨fun n => rfl, ?_, fun c rest outlen row => rfl, by decide⟩
  intro b rest outlen row hb
  conv_lhs => unfold visLoop
  simp [hb]

/-- C3 witness: the literal-byte equation instantiated at `b = 7`. -/
theorem c3_decompress_vis_witness :
    visLoop [7, 9] 0 4 =
      7 :: (if 0 + 1 < 4 then visLoop [9] (0 + 1) 4 else []) :=
  c3_decompress_vis.2.1 7 [9] 0 4 (by decide)

/-- C5: point-in-leaf descends from the root, moving to `children[0]` when
the signed plane distance is strictly positive and to `children[1]`
otherwise, stops at the first leaf (the `contents < 0` case), errors
fatally on a NULL model or node array, and on the x = 0 two-leaf tree sends
x = +1 to the positive branch and x = -1 to the other branch. -/
theorem c5_point_in_leaf :
    (∀ p plane c0 c1, pointInLeafDescend p (.node plane c0 c1) =
      if DotProduct p plane.normal - plane.dist > 0 then pointInLeafDescend p c0
      else pointInLeafDescend p c1) ∧
    (∀ p contents, pointInLeafDescend p (.leaf contents) = .leaf contents) ∧
    (∀ p t, (pointInLeafDescend p t).isLeaf = true) ∧
    (∀ p, Mod_PointInLeaf p none = .error "bad model") ∧
    (∀ p, Mod_PointInLeaf p (some ⟨none⟩) = .error "bad model") ∧
    Mod_PointInLeaf (1, 0, 0) (some ⟨some xplaneTree⟩) = .ok (.leaf (-1)) ∧
    Mod_PointInLeaf (-1, 0, 0) (some ⟨some xplaneTree⟩) = .ok (.leaf (-2)) := by
  refine ⟨fun p plane c0 c1 => rfl, fun p contents => rfl, ?_,
    fun p => rfl, fun p => rfl, ?_, ?_⟩
  · intro p t
    induction t with
    | leaf contents => rfl
    | node plane c0 c1 ih0 ih1 =>
      rw [pointInLeafDescend]
      split
      · exact ih0
      · exact ih1
  · norm_num [Mod_PointInLeaf, xplaneTree, pointInLeafDescend, DotProduct]
  · norm_num [Mod_PointInLeaf, xplaneTree, pointInLeafDescend, DotProduct]

/-- C1 counterexample: a lump table whose two lumps both occupy bytes
[0, 4) — overlapping byte ranges with the same starting offset — passes
the validation of `Mod_LoadBrushModel` unharmed, refuting the claim that
any table with two overlapping lumps fails the load. -/
theorem c1_counterexample :
    specLumpsOverlap ⟨0, 4⟩ ⟨0, 4⟩ ∧
      checkLumps 8 [⟨0, 4⟩, ⟨0, 4⟩] = true := by
  constructor
  · simp [specLumpsOverlap]
  · decide

/-- C1 (amended): validation passes iff every lump has
`0 ≤ ofs ≤ ofs + len ≤ size` (with `0 ≤ ofs + len`) and no lump's start
offset lies strictly inside another lump's byte range; in particular a
pair of lumps sharing a start offset is never flagged as overlapping. -/
theorem c1_lump_validation :
    (∀ (size : Int) (lumps : List Lump),
      checkLumps size lumps = true ↔
        ((∀ l ∈ lumps, 0 ≤ l.fileofs ∧ 0 ≤ l.fileofs + l.filelen ∧
          l.fileofs ≤ l.fileofs + l.filelen ∧ l.fileofs + l.filelen ≤ size) ∧
        (∀ l1 ∈ lumps, ∀ l2 ∈ lumps,
          ¬(l1.fileofs < l2.fileofs ∧
              l2.fileofs < l1.fileofs + l1.filelen) ∧
          ¬(l2.fileofs < l1.fileofs ∧
              l1.fileofs < l2.fileofs + l2.filelen)))) ∧
    (∀ l1 l2 : Lump, l1.fileofs = l2.fileofs → lumpPairOk l1 l2 = true) := by
  constructor
  · intro size lumps
    simp only [checkLumps, List.all_eq_true, Bool.and_eq_true,
      lumpExtentsOk, lumpPairOk, decide_eq_true_eq]
    constructor
    · intro h
      refine ⟨fun l hl => ?_, fun l1 h1 l2 h2 => ?_⟩
      · have := (h l hl).1
        push_neg at this
        omega
      · have := (h l1 h1).2 l2 h2
        push_neg at this
        omega
    · intro h l1 hl1
      refine ⟨?_, fun l2 hl2 => ?_⟩
      · have := h.1 l1 hl1
        push_neg
        omega
      · have := h.2 l1 hl1 l2 hl2
        push_neg
        omega
  · intro l1 l2 h
    simp only [lumpPairOk, decide_eq_true_eq]
    push_neg
    omega

/-- C1 witness: the amended characterisation instantiated on a concrete
valid two-lump table and on a same-start pair. -/
theorem c1_lump_validation_witness :
    checkLumps 10 [⟨0, 4⟩, ⟨4, 6⟩] = true ∧
      lumpPairOk ⟨3, 5⟩ ⟨3, 1⟩ = true := by
  constructor
  · exact (c1_lump_validation.1 10 [⟨0, 4⟩, ⟨4, 6⟩]).2 (by decide)
  · exact c1_lump_validation.2 ⟨3, 5⟩ ⟨3, 1⟩ rfl

/-- C8: the header validation of `Mod_LoadAliasModel` accepts exactly the
headers with the expected version, `skinheight ≤ MAX_LBM_HEIGHT`,
`0 < numverts ≤ MAXALIASVERTS`, `0 < numtris` and `numframes ≥ 1` — for
any positive triangle count whatsoever: no check compares `numtris`
against the capacity of the fixed `triangles[MAXALIASTRIS]` array. -/
theorem c8_alias_header_check :
    (∀ (av mlh mav : Int) (hdr : MdlHeader),
      aliasHeaderCheck av mlh mav hdr = .ok () ↔
        (hdr.version = av ∧ hdr.skinheight ≤ mlh ∧ 0 < hdr.numverts ∧
          hdr.numverts ≤ mav ∧ 0 < hdr.numtris ∧ 1 ≤ hdr.numframes)) ∧
    (∀ numtris : Int, 0 < numtris →
      aliasHeaderCheck 6 480 1024 ⟨6, 1, 8, 8, 1, numtris, 1⟩ = .ok ()) := by
  constructor
  · intro av mlh mav hdr
    unfold aliasHeaderCheck
    split_ifs <;> simp_all
  · intro numtris ht
    unfold aliasHeaderCheck
    norm_num
    omega

/-- C8 witness: a header whose triangle count exceeds the static triangle
array capacity (`MAXALIASTRIS = 2048` in the out-of-src header) passes
validation. -/
theorem c8_alias_header_check_witness :
    aliasHeaderCheck 6 480 1024 ⟨6, 1, 8, 8, 1, 2049, 1⟩ = .ok () :=
  c8_alias_header_check.2 2049 (by norm_num)

/-- All-positive interval lists are recorded unchanged. -/
theorem aliasGroupIntervals_ok (l : List ℚ) (h : ∀ t ∈ l, 0 < t) :
    aliasGroupIntervals l = .ok l := by
  induction l with
  | nil => rfl
  | cons t rest ih =>
    have ht : ¬t ≤ 0 := not_le.mpr (h t (List.mem_cons_self t rest))
    have := ih fun s hs => h s (List.mem_cons_of_mem t hs)
    simp [aliasGroupIntervals, ht, this]

/-- A non-positive interval anywhere in the list is fatal. -/
theorem aliasGroupIntervals_err (l : List ℚ) (t : ℚ) (ht : t ∈ l)
    (hle : t ≤ 0) : aliasGroupIntervals l = .error "interval <= 0" := by
  induction l with
  | nil => cases ht
  | cons s rest ih =>
    by_cases hs : s ≤ 0
    · simp [aliasGroupIntervals, hs]
    · rcases List.mem_cons.mp ht with rfl | hmem
      · exact absurd hle hs
      · simp [aliasGroupIntervals, hs, ih hmem]

/-- C4: frame decoding threads one pose cursor, reset to 0 per load: a
single frame takes `firstpose = cursor`, `numposes = 1` and advances the
cursor by one; a group takes `firstpose = cursor`, `numposes` equal to its
sub-frame count, each interval strictly positive on pain of a fatal error;
a single frame followed by a 3-entry group yields 4 poses with frame 0
spanning [0,1) and frame 1 spanning [1,4). -/
theorem c4_alias_pose_cursor :
    (∀ posenum : Nat,
      Mod_LoadAliasFrame posenum = (⟨posenum, 1⟩, [999], posenum + 1)) ∧
    (∀ (posenum : Nat) (intervals : List ℚ), (∀ t ∈ intervals, 0 < t) →
      Mod_LoadAliasGroup posenum intervals =
        .ok (⟨posenum, intervals.length⟩, intervals,
          posenum + intervals.length)) ∧
    (∀ (posenum : Nat) (intervals : List ℚ) (t : ℚ),
      t ∈ intervals → t ≤ 0 →
      Mod_LoadAliasGroup posenum intervals = .error "interval <= 0") ∧
    loadAliasFrames 0 [.single, .group [1, 1, 1]] =
      .ok ([⟨0, 1⟩, ⟨1, 3⟩], [999, 1, 1, 1], 4) := by
  refine ⟨fun posenum => rfl, ?_, ?_, ?_⟩
  · intro posenum intervals h
    simp [Mod_LoadAliasGroup, aliasGroupIntervals_ok intervals h]
  · intro posenum intervals t ht hle
    simp [Mod_LoadAliasGroup, aliasGroupIntervals_err intervals t ht hle]
  · norm_num [loadAliasFrames, Mod_LoadAliasFrame, Mod_LoadAliasGroup,
      aliasGroupIntervals]
    rfl

/-- C4 witness: the group equations instantiated on an all-positive
2-interval group at cursor 5 and on a group containing the interval 0. -/
theorem c4_alias_pose_cursor_witness :
    Mod_LoadAliasGroup 5 [2, 3] = .ok (⟨5, 2⟩, [2, 3], 7) ∧
      Mod_LoadAliasGroup 0 [1, 0] = .error "interval <= 0" := by
  constructor
  · have := c4_alias_pose_cursor.2.1 5 [2, 3] (by norm_num)
    simpa using this
  · exact c4_alias_pose_cursor.2.2.1 0 [1, 0] 0 (by norm_num) le_rfl

/-- C9 counterexample: a 2-image skin group produces the slot row
`[h0, h1, h0, h1]`: slot 2 receives the *first* sub-image's handle, not a
copy of the last one, refuting the claim that the last handle is
replicated into the remaining slots. -/
theorem c9_counterexample :
    skinGroupSlots [10, 20] = [10, 20, 10, 20] ∧
      (skinGroupSlots [10, 20]).getD 2 0 ≠ 20 := by decide

/-- C9 (amended): for a timed skin group with `k` sub-images, `1 ≤ k < 4`,
the remaining slots are filled cyclically from the first sub-images — slot
`j` holds the handle of sub-image `j mod k` — so every slot of the 4-entry
table holds one of the uploaded handles and mod-4 indexing is safe. -/
theorem c9_skin_slots (handles : List Nat) (hk : 1 ≤ handles.length)
    (hk4 : handles.length < 4) :
    ∀ j, j < 4 →
      (skinGroupSlots handles).getD j 0 =
          handles.getD (j % handles.length) 0 ∧
        (skinGroupSlots handles).getD j 0 ∈ handles := by
  match handles with
  | [] => simp at hk
  | [a] =>
    intro j hj
    interval_cases j <;>
      simp [skinGroupSlots, skinGroupFill1, skinGroupFill2]
  | [a, b] =>
    intro j hj
    interval_cases j <;>
      simp [skinGroupSlots, skinGroupFill1, skinGroupFill2]
  | [a, b, c] =>
    intro j hj
    interval_cases j <;>
      simp [skinGroupSlots, skinGroupFill1, skinGroupFill2]
  | a :: b :: c :: d :: t => simp at hk4; omega

/-- C9 witness: the cyclic-fill law instantiated on the two-handle group at
slot 2. -/
theorem c9_skin_slots_witness :
    (skinGroupSlots [10, 20]).getD 2 0 = [10, 20].getD (2 % 2) 0 ∧
      (skinGroupSlots [10, 20]).getD 2 0 ∈ [10, 20] :=
  c9_skin_slots [10, 20] (by decide) (by decide) 2 (by decide)

/-- C10: touching a model never loads data and leaves every pre-existing
slot (its needload flag and type included) untouched; an empty name is
fatal; a name already in the registry leaves the table exactly as it was;
an unknown name permanently claims a fresh slot for the (truncated) name
with `needload = true`, growing the count by one — fatal if the table is
full. -/
theorem c10_touch_model :
    (∀ models : List RegModel, Mod_TouchModel models "" = .error "NULL name") ∧
    (∀ (models : List RegModel) (name : String) (i : Nat), name ≠ "" →
      models.findIdx? (fun m => m.name = name) = some i →
      Mod_TouchModel models name = .ok models) ∧
    (∀ (models : List RegModel) (name : String), name ≠ "" →
      models.findIdx? (fun m => m.name = name) = none →
      models.length = MAX_MOD_KNOWN →
      Mod_TouchModel models name = .error "mod_numknown == MAX_MOD_KNOWN") ∧
    (∀ (models : List RegModel) (name : String), name ≠ "" →
      models.findIdx? (fun m => m.name = name) = none →
      models.length ≠ MAX_MOD_KNOWN →
      Mod_TouchModel models name =
        .ok (models ++ [⟨name.take (MAX_QPATH - 1), true, .brush⟩]) ∧
      ∀ ms', Mod_TouchModel models name = .ok ms' →
        ms'.length = models.length + 1) ∧
    (∀ (models : List RegModel) (name : String) (ms' : List RegModel),
      Mod_TouchModel models name = .ok ms' →
      ∀ i, i < models.length → ms'[i]? = models[i]?) := by
  refine ⟨fun models => rfl, ?_, ?_, ?_, ?_⟩
  · intro models name i hne hidx
    simp [Mod_TouchModel, Except.map, Mod_FindName, hne, hidx]
  · intro models name hne hidx hfull
    simp [Mod_TouchModel, Except.map, Mod_FindName, hne, hidx, hfull]
  · intro models name hne hidx hroom
    constructor
    · simp [Mod_TouchModel, Except.map, Mod_FindName, hne, hidx, hroom]
    · intro ms' hms'
      simp [Mod_TouchModel, Except.map, Mod_FindName, hne, hidx, hroom] at hms'
      simp [← hms']
  · intro models name ms' hms' i hi
    by_cases hne : name = ""
    · simp [Mod_TouchModel, Except.map, Mod_FindName, hne] at hms'
    · rcases hidx : models.findIdx? (fun m => m.name = name) with _ | j
      · by_cases hfull : models.length = MAX_MOD_KNOWN
        · simp [Mod_TouchModel, Except.map, Mod_FindName, hne, hidx, hfull] at hms'
        · simp [Mod_TouchModel, Except.map, Mod_FindName, hne, hidx, hfull] at hms'
          rw [← hms', List.getElem?_append]
          simp [hi]
      · simp [Mod_TouchModel, Except.map, Mod_FindName, hne, hidx] at hms'
        rw [← hms']

set_option maxRecDepth 8192 in
/-- C10 witness: touching an unknown name on a one-slot registry appends a
fresh needload slot and leaves the existing slot untouched; touching a
known name changes nothing. -/
theorem c10_touch_model_witness :
    Mod_TouchModel [⟨"progs/ogre.mdl", false, .alias⟩] "maps/e1m1.bsp" =
      .ok [⟨"progs/ogre.mdl", false, .alias⟩,
        ⟨"maps/e1m1.bsp", true, .brush⟩] ∧
    Mod_TouchModel [⟨"progs/ogre.mdl", false, .alias⟩] "progs/ogre.mdl" =
      .ok [⟨"progs/ogre.mdl", false, .alias⟩] := by
  constructor
  · have := (c10_touch_model.2.2.2.1
      [⟨"progs/ogre.mdl", false, .alias⟩] "maps/e1m1.bsp"
      (by simp) (by simp [List.findIdx?]) (by simp [MAX_MOD_KNOWN])).1
    simpa using this
  · exact c10_touch_model.2.1 [⟨"progs/ogre.mdl", false, .alias⟩]
      "progs/ogre.mdl" 0 (by simp) (by simp [List.findIdx?])

end GlModel

namespace GlModel

/-- The span-17 fixture's projected values: `[m, m + 17]` on the (1,0,0,0)
row and `[0, 0]` on the zero row, for any face reading surf-edges 0-1. -/
theorem span17_projVals (m : ℚ) (f : FaceSpec) (h1 : f.firstedge = 0)
    (h2 : f.numedges = 2) :
    projVals (span17Arrays m) f (1, 0, 0, 0) = [m, m + 17] ∧
      projVals (span17Arrays m) f (0, 0, 0, 0) = [0, 0] := by
  constructor <;>
    simp [projVals, h1, h2, List.range_succ, faceVertex, span17Arrays,
      projectVert]

/-- One-axis law for a span of exactly 17 units: the rounded extent is 32
when the minimum lies at most 15 above its 16-unit boundary, 48
otherwise. -/
theorem axisBounds_span17 (l : List ℚ) (m : ℚ) (h1 : axisMin l = m)
    (h2 : axisMax l = m + 17) :
    (axisBounds l).2 =
      if m - 16 * ((Int.floor (m / 16) : ℤ) : ℚ) ≤ 15 then 32 else 48 := by
  have h16 : (0:ℚ) < 16 := by norm_num
  show (Int.ceil (axisMax l / 16) - Int.floor (axisMin l / 16)) * 16 = _
  rw [h1, h2]
  set k : ℤ := Int.floor (m / 16) with hk
  have hm1 : (k:ℚ) * 16 ≤ m := (le_div_iff₀ h16).mp (Int.floor_le _)
  have hm2 : m < ((k:ℚ) + 1) * 16 :=
    (div_lt_iff₀ h16).mp (Int.lt_floor_add_one _)
  by_cases hc : m - 16 * (k:ℚ) ≤ 15
  · have hceil : Int.ceil ((m + 17) / 16) = k + 2 := by
      rw [Int.ceil_eq_iff]
      push_cast
      constructor
      · rw [lt_div_iff₀ h16]; linarith
      · rw [div_le_iff₀ h16]; linarith
    rw [hceil, if_pos hc]
    ring
  · have hceil : Int.ceil ((m + 17) / 16) = k + 3 := by
      rw [Int.ceil_eq_iff]
      push_cast
      push_neg at hc
      constructor
      · rw [lt_div_iff₀ h16]; linarith
      · rw [div_le_iff₀ h16]; linarith
    rw [hceil, if_neg hc]
    ring

/-- The zero row's bounds. -/
theorem axisBounds_zeroRow : axisBounds [(0:ℚ), 0] = (0, 0) := by
  unfold axisBounds axisMin axisMax
  norm_num [fltMax, min_def, max_def]

/-- Bounds of the aligned span [0, 17]. -/
theorem axisBounds_zero17 : axisBounds [(0:ℚ), 0 + 17] = (0, 32) := by
  have hc : Int.ceil ((17:ℚ)/16) = 2 := by
    rw [Int.ceil_eq_iff]
    norm_num
  unfold axisBounds axisMin axisMax
  norm_num [fltMax, min_def, max_def, hc]

/-- Bounds of the misaligned span [15.5, 32.5]. -/
theorem axisBounds_half17 : axisBounds [(31/2:ℚ), 31/2 + 17] = (0, 48) := by
  have hc : Int.ceil ((31/2 + 17:ℚ)/16) = 3 := by
    rw [Int.ceil_eq_iff]
    norm_num
  have hc2 : Int.ceil ((65:ℚ)/32) = 3 := by
    rw [Int.ceil_eq_iff]
    norm_num
  have hf : Int.floor ((31/2:ℚ)/16) = 0 := by norm_num
  unfold axisBounds axisMin axisMax
  norm_num [fltMax, min_def, max_def, hc, hc2, hf]

/-- Extents of the aligned fixture face (non-special). -/
theorem fixture_extents_plain :
    CalcSurfaceExtents (span17Arrays 0) span17Face = .ok ⟨(0, 0), (32, 0)⟩ := by
  have hp := span17_projVals 0 span17Face rfl rfl
  unfold CalcSurfaceExtents
  rw [show span17Face.texinfo.vecsS = (1,0,0,0) from rfl,
    show span17Face.texinfo.vecsT = (0,0,0,0) from rfl, hp.1, hp.2,
    axisBounds_zero17, axisBounds_zeroRow]
  norm_num [span17Face, TEX_SPECIAL]

/-- Extents of the aligned fixture face with `TEX_SPECIAL` set. -/
theorem fixture_extents_special :
    CalcSurfaceExtents (span17Arrays 0) span17FaceSpecial =
      .ok ⟨(0, 0), (32, 0)⟩ := by
  have hp := span17_projVals 0 span17FaceSpecial rfl rfl
  unfold CalcSurfaceExtents
  rw [show span17FaceSpecial.texinfo.vecsS = (1,0,0,0) from rfl,
    show span17FaceSpecial.texinfo.vecsT = (0,0,0,0) from rfl, hp.1, hp.2,
    axisBounds_zero17, axisBounds_zeroRow]
  norm_num [span17FaceSpecial, TEX_SPECIAL]

/-- C6 counterexample: a face not flagged special whose projections span
exactly 17 units, from 15.5 to 32.5, computes the axis extent 48, not 32 as
the claim demands. -/
theorem c6_counterexample :
    CalcSurfaceExtents (span17Arrays (31/2)) span17Face =
      .ok ⟨(0, 0), (48, 0)⟩ ∧ ((48 : Int) ≠ 32) := by
  refine ⟨?_, by decide⟩
  have hp := span17_projVals (31/2) span17Face rfl rfl
  unfold CalcSurfaceExtents
  rw [show span17Face.texinfo.vecsS = (1,0,0,0) from rfl,
    show span17Face.texinfo.vecsT = (0,0,0,0) from rfl, hp.1, hp.2,
    axisBounds_half17, axisBounds_zeroRow]
  norm_num [span17Face, TEX_SPECIAL]

/-- C6 (amended): extents project every face vertex onto the two basis
rows, fold min/max, round the min down and the max up to 16-unit
boundaries, and take the rounded span; a span of exactly 17 units rounds
to 32 exactly when the minimum lies at most 15 above its enclosing 16-unit
boundary (e.g. any 17-unit span starting at an integer), and to 48
otherwise; an aligned span-17 face computes extent 32. -/
theorem c6_texel_extents :
    (∀ (l : List ℚ) (m : ℚ), axisMin l = m → axisMax l = m + 17 →
      (axisBounds l).2 =
        if m - 16 * ((Int.floor (m / 16) : ℤ) : ℚ) ≤ 15 then 32 else 48) ∧
    (∀ (A : BspArrays) (f : FaceSpec) (ext : SurfExtents),
      CalcSurfaceExtents A f = .ok ext →
      ext.extents = ((axisBounds (projVals A f f.texinfo.vecsS)).2,
        (axisBounds (projVals A f f.texinfo.vecsT)).2) ∧
      ext.texturemins = ((axisBounds (projVals A f f.texinfo.vecsS)).1,
        (axisBounds (projVals A f f.texinfo.vecsT)).1)) ∧
    CalcSurfaceExtents (span17Arrays 0) span17Face = .ok ⟨(0, 0), (32, 0)⟩ := by
  refine ⟨axisBounds_span17, ?_, fixture_extents_plain⟩
  intro A f ext h
  unfold CalcSurfaceExtents at h
  dsimp only at h
  split_ifs at h <;> simp_all
  subst h
  exact ⟨rfl, rfl⟩

/-- C6 witness: the span-17 law applied to the aligned list [0, 17]. -/
theorem c6_texel_extents_witness :
    (axisBounds [(0:ℚ), 0 + 17]).2 =
      if (0:ℚ) - 16 * ((Int.floor ((0:ℚ) / 16) : ℤ) : ℚ) ≤ 15
        then 32 else 48 := by
  refine c6_texel_extents.1 [(0:ℚ), 0 + 17] 0 ?_ ?_ <;>
    norm_num [axisMin, axisMax, fltMax, min_def, max_def]

end GlModel

namespace GlModel

/-- C7 counterexample: a face whose texture name starts with "sky"
(texinfo flagged `TEX_SPECIAL`, computed extents (32, 0)) keeps the
computed extents through `Mod_LoadFaces` — they are not forced to 16384;
only the sky/tiled draw flags are added. -/
theorem c7_counterexample :
    loadFaceSurf ("sky1".data) false (span17Arrays 0) span17FaceSpecial =
      .ok ⟨0 ||| SURF_DRAWSKY ||| SURF_DRAWTILED, (0, 0), (32, 0)⟩ ∧
      ((32 : Int) ≠ 16384) := by
  refine ⟨?_, by decide⟩
  unfold loadFaceSurf
  rw [fixture_extents_special]
  norm_num

/-- C7 (amended): `CalcSurfaceExtents` is fatal exactly when the texinfo
lacks `TEX_SPECIAL` and some axis extent exceeds 256 — the exemption is
keyed on the texinfo flag, not on the name; a "*"-prefixed (turbulent)
face gets `SURF_DRAWTURB|SURF_DRAWTILED` and its extents forced to 16384
with texturemins -8192; a "sky"-prefixed face gets
`SURF_DRAWSKY|SURF_DRAWTILED` but keeps its computed extents. -/
theorem c7_special_faces :
    (∀ (A : BspArrays) (f : FaceSpec),
      CalcSurfaceExtents A f = .error "Bad surface extents" ↔
        (f.texinfo.flags &&& TEX_SPECIAL = 0 ∧
          ((axisBounds (projVals A f f.texinfo.vecsS)).2 > 256 ∨
            (axisBounds (projVals A f f.texinfo.vecsT)).2 > 256))) ∧
    (∀ (texname : List Char) (side : Bool) (A : BspArrays) (f : FaceSpec)
        (ext : SurfExtents),
      ['s', 'k', 'y'].isPrefixOf texname = true →
      CalcSurfaceExtents A f = .ok ext →
      loadFaceSurf texname side A f =
        .ok ⟨(if side then SURF_PLANEBACK else 0) ||| SURF_DRAWSKY |||
          SURF_DRAWTILED, ext.texturemins, ext.extents⟩) ∧
    (∀ (texname : List Char) (side : Bool) (A : BspArrays) (f : FaceSpec)
        (ext : SurfExtents),
      ['s', 'k', 'y'].isPrefixOf texname = false →
      ['*'].isPrefixOf texname = true →
      CalcSurfaceExtents A f = .ok ext →
      loadFaceSurf texname side A f =
        .ok ⟨(if side then SURF_PLANEBACK else 0) ||| SURF_DRAWTURB |||
          SURF_DRAWTILED, (-8192, -8192), (16384, 16384)⟩) := by
  refine ⟨?_, ?_, ?_⟩
  · intro A f
    unfold CalcSurfaceExtents
    dsimp only
    split_ifs with h1 h2 <;> simp_all
  · intro texname side A f ext hsky hok
    unfold loadFaceSurf
    rw [hok]
    simp [hsky]
  · intro texname side A f ext hsky hturb hok
    unfold loadFaceSurf
    rw [hok]
    simp [hsky, hturb]

/-- C7 witness: the sky and turbulent equations applied to the aligned
fixture face. -/
theorem c7_special_faces_witness :
    loadFaceSurf ("sky1".data) true (span17Arrays 0) span17Face =
      .ok ⟨(if true then SURF_PLANEBACK else 0) ||| SURF_DRAWSKY |||
        SURF_DRAWTILED, (0, 0), (32, 0)⟩ ∧
    loadFaceSurf ("*water".data) false (span17Arrays 0) span17Face =
      .ok ⟨(if false then SURF_PLANEBACK else 0) ||| SURF_DRAWTURB |||
        SURF_DRAWTILED, (-8192, -8192), (16384, 16384)⟩ := by
  constructor
  · exact c7_special_faces.2.1 ("sky1".data) true (span17Arrays 0) span17Face
      ⟨(0, 0), (32, 0)⟩ (by decide) fixture_extents_plain
  · exact c7_special_faces.2.2 ("*water".data) false (span17Arrays 0)
      span17Face ⟨(0, 0), (32, 0)⟩ (by decide) (by decide)
      fixture_extents_plain

end GlModel

namespace GlModel

/-- The linking fold succeeds when every frame it visits is populated; it
preserves the state's length and every entry no visited frame maps to. -/
theorem linkFold_ok (anims : List (Option Nat)) (maxf : Nat)
    (alt0 : Option Nat) :
    ∀ (l : List Nat) (st : List (Option AnimInfo)),
      (∀ j ∈ l, (anims.getD j none).isSome) →
      ∃ st', l.foldlM (linkStep anims maxf alt0) st = .ok st' ∧
        st'.length = st.length ∧
        (∀ t : Nat, (∀ j ∈ l, anims.getD j none ≠ some t) →
          st'.getD t none = st.getD t none)
  | [], st, _ => ⟨st, rfl, rfl, fun _ _ => rfl⟩
  | a :: l', st, h => by
    obtain ⟨ta, hta⟩ := Option.isSome_iff_exists.mp
      (h a (List.mem_cons_self a l'))
    obtain ⟨st', h1, h2, h3⟩ := linkFold_ok anims maxf alt0 l'
      (st.set ta (some ⟨maxf * 2, a * 2, (a + 1) * 2,
        anims.getD ((a + 1) % maxf) none, alt0⟩))
      (fun j hj => h j (List.mem_cons_of_mem a hj))
    refine ⟨st', ?_, ?_, ?_⟩
    · rw [List.foldlM_cons]
      simp only [linkStep, hta]
      exact h1
    · rw [h2, List.length_set]
    · intro t ht
      have hne : ta ≠ t := by
        intro hEq
        exact ht a (List.mem_cons_self a l') (hEq ▸ hta)
      rw [h3 t (fun j hj => ht j (List.mem_cons_of_mem a hj)),
        List.getD_eq_getElem?_getD, List.getD_eq_getElem?_getD,
        List.getElem?_set_ne hne]
      exact (List.getD_eq_getElem?_getD st t none).symm

/-- The value the linking fold stores for a frame `j` it visits exactly
once: the texture at `anims[j]` receives the `ANIM_CYCLE = 2` timing
fields and the circular `anims[(j+1) % max]` successor. -/
theorem linkFold_entry (anims : List (Option Nat)) (maxf : Nat)
    (alt0 : Option Nat) :
    ∀ (l : List Nat) (st : List (Option AnimInfo)) (j t : Nat),
      (∀ j' ∈ l, (anims.getD j' none).isSome) →
      j ∈ l → l.Nodup →
      anims.getD j none = some t →
      (∀ j' ∈ l, j' ≠ j → anims.getD j' none ≠ some t) →
      t < st.length →
      ∀ st', l.foldlM (linkStep anims maxf alt0) st = .ok st' →
        st'.getD t none = some ⟨maxf * 2, j * 2, (j + 1) * 2,
          anims.getD ((j + 1) % maxf) none, alt0⟩
  | [], _, j, _, _, hj, _, _, _, _ => absurd hj (List.not_mem_nil j)
  | a :: l', st, j, t, h, hj, hnd, hjt, huniq, hlt => by
    obtain ⟨ta, hta⟩ := Option.isSome_iff_exists.mp
      (h a (List.mem_cons_self a l'))
    intro st' hfold
    rw [List.foldlM_cons] at hfold
    simp only [linkStep, hta] at hfold
    rcases List.mem_cons.mp hj with rfl | hj'
    · have hEq : ta = t := by
        rw [hta] at hjt
        exact Option.some_inj.mp hjt
      subst hEq
      obtain ⟨st'', h1, h2, h3⟩ := linkFold_ok anims maxf alt0 l'
        (st.set ta (some ⟨maxf * 2, j * 2, (j + 1) * 2,
          anims.getD ((j + 1) % maxf) none, alt0⟩))
        (fun j' hj'' => h j' (List.mem_cons_of_mem j hj''))
      have hfold' : l'.foldlM (linkStep anims maxf alt0)
          (st.set ta (some ⟨maxf * 2, j * 2, (j + 1) * 2,
            anims.getD ((j + 1) % maxf) none, alt0⟩)) = .ok st' := hfold
      rw [h1] at hfold'
      cases hfold'
      rw [h3 ta ?noTouch]
      · rw [List.getD_eq_getElem?_getD,
          List.getElem?_set_eq_of_lt _ hlt]
        rfl
      case noTouch =>
        intro j' hj'mem
        have hne : j' ≠ j := fun hEq =>
          (List.nodup_cons.mp hnd).1 (hEq ▸ hj'mem)
        exact huniq j' (List.mem_cons_of_mem j hj'mem) hne
    · have hne : a ≠ j := fun hEq =>
        (List.nodup_cons.mp hnd).1 (hEq ▸ hj')
      have htat : ta ≠ t := by
        intro hEq
        exact huniq a (List.mem_cons_self a l') hne (by rw [hta, hEq])
      exact linkFold_entry anims maxf alt0 l'
        (st.set ta (some ⟨maxf * 2, a * 2, (a + 1) * 2,
          anims.getD ((a + 1) % maxf) none, alt0⟩)) j t
        (fun j' hj'' => h j' (List.mem_cons_of_mem a hj''))
        hj' (List.nodup_cons.mp hnd).2 hjt
        (fun j' hj'' hne' => huniq j' (List.mem_cons_of_mem a hj'') hne')
        (by rw [List.length_set]; exact hlt) st' hfold

/-- A gap anywhere in the visited frames is fatal. -/
theorem linkFold_err (anims : List (Option Nat)) (maxf : Nat)
    (alt0 : Option Nat) :
    ∀ (l : List Nat) (st : List (Option AnimInfo)),
      (∃ j, j ∈ l ∧ anims.getD j none = none) →
      l.foldlM (linkStep anims maxf alt0) st = .error "Missing frame"
  | [], _, ⟨j, hj, _⟩ => absurd hj (List.not_mem_nil j)
  | a :: l', st, ⟨j, hj, hnone⟩ => by
    rw [List.foldlM_cons]
    rcases ha : anims.getD a none with _ | ta
    · simp only [linkStep, ha]
      rfl
    · simp only [linkStep, ha]
      have hj' : j ∈ l' := by
        rcases List.mem_cons.mp hj with rfl | h'
        · rw [ha] at hnone
          cases hnone
        · exact h'
      exact linkFold_err anims maxf alt0 l'
        (st.set ta (some ⟨maxf * 2, a * 2, (a + 1) * 2,
          anims.getD ((a + 1) % maxf) none, alt0⟩)) ⟨j, hj', hnone⟩

set_option maxRecDepth 100000 in
/-- C2: with `max` the number of frames (one past the maximum index
observed), a sequence with all of frames `0..max-1` populated links each
frame `j`'s texture with `anim_total = max * 2`, `anim_min = j * 2`,
`anim_max = (j+1) * 2` and the circular successor `anims[(j+1) % max]`; a
gap at any frame below `max` is the fatal "Missing frame"; textures
`+0ABC`, `+1ABC`, `+2ABC` form a 3-entry circular primary animation with
`anim_total = 6`, and dropping `+1ABC` fails the load. -/
theorem c2_texture_animation :
    (∀ (anims : List (Option Nat)) (maxf : Nat) (alt0 : Option Nat)
        (st : List (Option AnimInfo)) (j t : Nat),
      (∀ j' < maxf, (anims.getD j' none).isSome) →
      j < maxf → anims.getD j none = some t →
      (∀ j' < maxf, j' ≠ j → anims.getD j' none ≠ some t) →
      t < st.length →
      ∀ st', linkSeq st anims maxf alt0 = .ok st' →
        st'.getD t none = some ⟨maxf * 2, j * 2, (j + 1) * 2,
          anims.getD ((j + 1) % maxf) none, alt0⟩) ∧
    (∀ (anims : List (Option Nat)) (maxf : Nat) (alt0 : Option Nat)
        (st : List (Option AnimInfo)),
      (∃ j, j < maxf ∧ anims.getD j none = none) →
      linkSeq st anims maxf alt0 = .error "Missing frame") ∧
    sequenceAnims [some "+0ABC".data, some "+1ABC".data, some "+2ABC".data] =
      .ok [some ⟨6, 0, 2, some 1, none⟩, some ⟨6, 2, 4, some 2, none⟩,
        some ⟨6, 4, 6, some 0, none⟩] ∧
    sequenceAnims [some "+0ABC".data, some "+2ABC".data] =
      .error "Missing frame" := by
  refine ⟨?_, ?_, by rfl, by rfl⟩
  · intro anims maxf alt0 st j t hall hj hjt huniq hlt st' hfold
    exact linkFold_entry anims maxf alt0 (List.range maxf) st j t
      (fun j' hj' => hall j' (List.mem_range.mp hj'))
      (List.mem_range.mpr hj) (List.nodup_range maxf) hjt
      (fun j' hj' hne => huniq j' (List.mem_range.mp hj') hne)
      hlt st' hfold
  · intro anims maxf alt0 st hgap
    obtain ⟨j, hj, hnone⟩ := hgap
    exact linkFold_err anims maxf alt0 (List.range maxf) st
      ⟨j, List.mem_range.mpr hj, hnone⟩

set_option maxRecDepth 8192 in
/-- C2 witness: the link law applied to a concrete two-frame sequence
(textures 5 and 7 of an 8-slot table) at frame 0, and the gap law applied
to a one-frame sequence whose frame 0 is missing. -/
theorem c2_texture_animation_witness :
    (((List.replicate 8 (none : Option AnimInfo)).set 5
        (some ⟨4, 0, 2, some 7, none⟩)).set 7
        (some ⟨4, 2, 4, some 5, none⟩)).getD 5 none =
      some ⟨2 * 2, 0 * 2, (0 + 1) * 2,
        ([some 5, some 7] : List (Option Nat)).getD ((0 + 1) % 2) none,
        none⟩ ∧
    linkSeq (List.replicate 8 none) [none] 1 none =
      .error "Missing frame" := by
  constructor
  · exact c2_texture_animation.1 [some 5, some 7] 2 none
      (List.replicate 8 none) 0 5 (by decide) (by decide) rfl (by decide)
      (by decide) _ rfl
  · exact c2_texture_animation.2.1 [none] 1 none (List.replicate 8 none)
      ⟨0, by decide, rfl⟩

end GlModel
